import Mathlib

/-!
Verification of the optional-value container demonstrated in `src/main.cpp`.

The program is a single-file C++ demonstration of `boost::optional` and its
composition operators (`map`, `flat_map`, `value_or`, `value_or_eval`).
We embed the container as the inductive `OptionalValue` (the spec's name for
the abstraction; `boost::optional` in the source) with the same two states and
the same operations, translated clause by clause from the Boost semantics the
source relies on:

  * `map f`      : absent stays absent, present v becomes present (f v);
  * `flat_map f` : absent stays absent, present v becomes f v directly;
  * `value_or d` : the contained value when present, else d;
  * `value_or_eval g` : the contained value when present, else g ();
  * `get`        : the contained value when present; on an absent container it
                   raises the empty-access condition, modelled as
                   `Except.error "empty-access"`.

C++ `double` arithmetic in the program is exact at every value the program
computes (small integers), so doubles are embedded as `ℚ`.  `std::sqrt` is
kept abstract as a parameter `sqrt : ℤ → ℚ` (its argument is always the
`std::int32_t` parameter of `safe_square_root`); the only fact about it any
run of the program depends on is `sqrt 1 = 1`, which IEEE-754 guarantees.
The implicit C++ conversion from `double` to `std::int32_t` truncates toward
zero and is embedded as `truncQ`.  Machine-integer widths never matter: every
integer the program produces is far inside the `int32` range.
-/

inductive OptionalValue (α : Type u) : Type u where
  | absent : OptionalValue α
  | present : α → OptionalValue α
deriving DecidableEq, Repr

namespace OptionalValue

/-- The spec's `of(x)` producer: wraps a value in the present state. -/
def of (x : α) : OptionalValue α := present x

/-- The spec's `empty()` producer: the absent container. -/
def empty : OptionalValue α := absent

/-- Discriminant query (`boost::optional::is_initialized` in the source,
`is_present` in the spec's operation table). -/
def is_present : OptionalValue α → Bool
  | absent => false
  | present _ => true

/-- `boost::optional::map`: applies f to the contained value and wraps the
result; an absent source propagates untouched. -/
def map (o : OptionalValue α) (f : α → β) : OptionalValue β :=
  match o with
  | absent => absent
  | present v => present (f v)

/-- `boost::optional::flat_map`: applies f, whose result is forwarded
directly (no double-wrapping); an absent source propagates untouched. -/
def flat_map (o : OptionalValue α) (f : α → OptionalValue β) : OptionalValue β :=
  match o with
  | absent => absent
  | present v => f v

/-- `boost::optional::value_or`: the contained value when present, else the
default. -/
def value_or (o : OptionalValue α) (d : α) : α :=
  match o with
  | absent => d
  | present v => v

/-- `boost::optional::value_or_eval`: the contained value when present, else
the generator is invoked and its result returned. -/
def value_or_eval (o : OptionalValue α) (g : Unit → α) : α :=
  match o with
  | absent => g ()
  | present v => v

/-- `boost::optional::get` (also `value()` in the source): the contained
value when present; reading an absent container raises the empty-access
condition, embedded as `Except.error`. -/
def get : OptionalValue α → Except String α
  | absent => Except.error "empty-access"
  | present v => Except.ok v

/-- `map` with an invocation-counting state threaded through the mapped
function, mirroring `map`'s structure clause by clause: the function
receives the counter and returns the updated counter alongside its result.
Used to express "f is never invoked" as "the counter is unchanged". -/
def mapCount (o : OptionalValue α) (f : α → ℕ → β × ℕ) (n : ℕ) :
    OptionalValue β × ℕ :=
  match o with
  | absent => (absent, n)
  | present v =>
      let r := f v n
      (present r.1, r.2)

/-- `value_or_eval` with an invocation-counting state threaded through the
generator, mirroring `value_or_eval`'s structure clause by clause. -/
def value_or_eval_count (o : OptionalValue α) (g : Unit → ℕ → α × ℕ) (n : ℕ) :
    α × ℕ :=
  match o with
  | absent => g () n
  | present v => (v, n)

end OptionalValue

/-- The counting `mapCount` agrees with `map` when the mapped function is a
pure function instrumented to bump the counter on each invocation. -/
theorem mapCount_fst_eq_map {α β : Type} (o : OptionalValue α) (f : α → β)
    (n : ℕ) :
    (o.mapCount (fun a k => (f a, k + 1)) n).1 = o.map f := by
  cases o <;> rfl

/-- Truncation of a rational toward zero: the embedding of the implicit C++
conversion from `double` to `std::int32_t`. -/
def truncQ (q : ℚ) : ℤ := if q < 0 then ⌈q⌉ else ⌊q⌋

/-- `safe_square_root` from `src/main.cpp` lines 15–21: `boost::none` for a
negative argument, otherwise `std::sqrt` of it, wrapped present.  `sqrt` is
the abstract model of `std::sqrt` on `int32` arguments. -/
def safe_square_root (sqrt : ℤ → ℚ) (a_param : ℤ) : OptionalValue ℚ :=
  if a_param < 0 then OptionalValue.absent else OptionalValue.present (sqrt a_param)

/-- `get_default` from `src/main.cpp` line 23: a generator returning `0.0`. -/
def get_default : Unit → ℚ := fun _ => 0

/-- `Person` from `src/main.cpp` lines 26–32. -/
structure Person where
  first_name : String
  middle_name : OptionalValue String
  last_name : String

/-- `Person::GetMiddleName`. -/
def Person.GetMiddleName (p : Person) : OptionalValue String := p.middle_name

/-- `maybe_load_from_file` from `src/main.cpp` lines 36–38: always yields
John Doe with an absent middle name. -/
def maybe_load_from_file : OptionalValue Person :=
  OptionalValue.present
    { first_name := "John", middle_name := OptionalValue.absent, last_name := "Doe" }

/-- The lambda of `src/main.cpp` lines 133–139: rebuilds the string with
`std::toupper` applied to each character (`Char.toUpper` in the embedding;
they agree on the ASCII payloads the program uses). -/
def capitalize_string (value : String) : String :=
  String.mk (value.data.map Char.toUpper)

/-- The monadic middle-name chain of `src/main.cpp` lines 130–139. -/
def capitalized_middle_name : OptionalValue String :=
  (maybe_load_from_file.flat_map (fun value => value.GetMiddleName)).map
    capitalize_string

/-- The "sad evaluation chaining" block of `src/main.cpp` lines 47–70,
returning the final `evaluations_sequence`, `has_error`, and the printf
format string of the branch taken.  The presence checks followed by `get()`
in the source are embedded as the corresponding pattern matches. -/
def sadBlock (sqrt : ℤ → ℚ) (valid_res : OptionalValue ℚ) : ℚ × Bool × String :=
  let state : ℚ × Bool :=
    match valid_res with
    | OptionalValue.present tmp_res =>
        let negated_tmp_res := -tmp_res
        let new_res := safe_square_root sqrt (truncQ negated_tmp_res)
        match new_res with
        | OptionalValue.present v => (v * 2, false)
        | OptionalValue.absent => (0, true)
    | OptionalValue.absent => (0, true)
  let line := if state.2 then "sad value is %f\n" else "sad value is invalid\n"
  (state.1, state.2, line)

/-- The "proper evaluations chaining" block of `src/main.cpp` lines 74–83:
`valid_res.map(+3).map(negate).flat_map(safe_square_root).map(*2)`.  The
implicit `double` → `int32` conversion at the `flat_map(safe_square_root)`
call site is `truncQ`. -/
def evaluations_sequence (sqrt : ℤ → ℚ) (valid_res : OptionalValue ℚ) :
    OptionalValue ℚ :=
  (((valid_res.map (fun value => value + 3)).map (fun value => -value)).flat_map
      (fun value => safe_square_root sqrt (truncQ value))).map
    (fun value => value * 2)

/-- The "with ifs" combination of `src/main.cpp` lines 150–159: both present
checks followed by `value()` on each, embedded as the pattern match. -/
def combine_with_ifs (a b : OptionalValue ℤ) : OptionalValue ℤ :=
  match a, b with
  | OptionalValue.present av, OptionalValue.present bv => OptionalValue.present (av + bv)
  | _, _ => OptionalValue.absent

/-- The functional combination of `src/main.cpp` lines 162–168. -/
def combine_functional (a b : OptionalValue ℤ) : OptionalValue ℤ :=
  a.flat_map (fun value => b.map (fun value_1 => value + value_1))

/-- `main` from `src/main.cpp` lines 40–172 along its assertion path: each
`assert` is embedded as a guard that aborts (`none`) when its condition
fails, and `main`'s `return 0` as `some 0`.  Print-only statements (and the
`value_or(NAN)` print, whose NaN payload has no exact embedding and affects
no assertion) do not influence control flow and are not replayed here; the
sad block and the proper chain are still evaluated for fidelity. -/
def mainRun (sqrt : ℤ → ℚ) : Option ℤ :=
  let invalid_res := safe_square_root sqrt (-1)
  if invalid_res = OptionalValue.absent then
    let valid_res := safe_square_root sqrt 1
    if valid_res.is_present = true then
      let _sad := sadBlock sqrt valid_res
      let _chain := evaluations_sequence sqrt valid_res
      if capitalized_middle_name = OptionalValue.absent then
        let a : OptionalValue ℤ := OptionalValue.present 5
        let b : OptionalValue ℤ := OptionalValue.absent
        if combine_with_ifs a b = OptionalValue.absent then
          if combine_functional a b = OptionalValue.absent then
            some 0
          else none
        else none
      else none
    else none
  else none

/-- Concrete executable model of `std::sqrt` on the integer inputs the
program feeds it, used only to witness the `sqrt 1 = 1` hypotheses. -/
def sqrtModel (n : ℤ) : ℚ := (Nat.sqrt n.toNat : ℚ)

/-! ## Helper lemmas -/

theorem ceil_neg_four : ⌈(-4 : ℚ)⌉ = -4 := by
  rw [show (-4 : ℚ) = ((-4 : ℤ) : ℚ) by norm_num, Int.ceil_intCast]

theorem ceil_neg_one : ⌈(-1 : ℚ)⌉ = -1 := by
  rw [show (-1 : ℚ) = ((-1 : ℤ) : ℚ) by norm_num, Int.ceil_intCast]

theorem truncQ_neg_four : truncQ (-4 : ℚ) = -4 := by
  rw [truncQ, if_pos (by norm_num)]
  exact ceil_neg_four

theorem truncQ_neg_one : truncQ (-1 : ℚ) = -1 := by
  rw [truncQ, if_pos (by norm_num)]
  exact ceil_neg_one

/-! ## Claim theorems -/

/-- C1: starting from the producer result `present 1` (`safe_square_root 1`
with `std::sqrt 1 = 1`), the chain
`map(v => v+3).map(negate).flat_map(safe_square_root).map(v => v*2)`
produces the intermediate `present (-4)` after the negate of 4,
`safe_square_root` of that negative value is absent, and the final chain
result is absent. -/
theorem c1_present_chain (sqrt : ℤ → ℚ) (h : sqrt 1 = 1) :
    ((safe_square_root sqrt 1).map (fun value => value + 3)).map (fun value => -value) =
      OptionalValue.present (-4) ∧
    safe_square_root sqrt (truncQ (-4)) = OptionalValue.absent ∧
    evaluations_sequence sqrt (safe_square_root sqrt 1) = OptionalValue.absent := by
  have hmid : ((safe_square_root sqrt 1).map (fun value => value + 3)).map
      (fun value => -value) = OptionalValue.present (-4) := by
    norm_num [safe_square_root, OptionalValue.map, h]
  have habs : safe_square_root sqrt (truncQ (-4)) = OptionalValue.absent := by
    rw [truncQ_neg_four]
    simp [safe_square_root]
  refine ⟨hmid, habs, ?_⟩
  unfold evaluations_sequence
  rw [hmid]
  simp [OptionalValue.flat_map, OptionalValue.map, habs]

/-- Witness for C1 at the concrete sqrt model (`sqrtModel 1 = 1` holds). -/
theorem c1_present_chain_witness :
    sqrtModel 1 = 1 ∧
    evaluations_sequence sqrtModel (safe_square_root sqrtModel 1) = OptionalValue.absent :=
  ⟨by decide, (c1_present_chain sqrtModel (by decide)).2.2⟩

/-- C2: `get` on an absent `OptionalValue` raises the empty-access error
condition; `get` on a present one returns the stored value and never raises;
absence itself flows through `map`/`flat_map` as ordinary data (an absent
result, not an error). -/
theorem c2_get_and_absence_as_data {α β : Type} (x : α) (f : α → β)
    (g : α → OptionalValue β) :
    OptionalValue.get (OptionalValue.absent : OptionalValue α) =
      Except.error "empty-access" ∧
    OptionalValue.get (OptionalValue.present x) = Except.ok x ∧
    (OptionalValue.absent : OptionalValue α).map f = OptionalValue.absent ∧
    (OptionalValue.absent : OptionalValue α).flat_map g = OptionalValue.absent :=
  ⟨rfl, rfl, rfl, rfl⟩

/-- C3: `empty().map(f)` equals `empty()` for every f, and f is never
invoked (the instrumented invocation counter stays at its initial value);
in particular mapping the character-by-character capitalisation over an
absent optional string short-circuits to absent. -/
theorem c3_empty_map_short_circuit {α β : Type} (f : α → β) (n : ℕ) :
    (OptionalValue.empty : OptionalValue α).map f = OptionalValue.empty ∧
    (OptionalValue.empty : OptionalValue α).mapCount (fun a k => (f a, k + 1)) n =
      (OptionalValue.empty, n) ∧
    (OptionalValue.empty : OptionalValue String).map capitalize_string =
      OptionalValue.empty :=
  ⟨rfl, rfl, rfl⟩

/-- C4: combining `a.flat_map(av => b.map(bv => av+bv))` yields absent for
`a = present 5`, `b = absent`, and `present 12` for `a = present 5`,
`b = present 7`. -/
theorem c4_combining_two_optionals :
    combine_functional (OptionalValue.present 5) OptionalValue.absent =
      OptionalValue.absent ∧
    combine_functional (OptionalValue.present 5) (OptionalValue.present 7) =
      OptionalValue.present 12 :=
  ⟨rfl, by decide⟩

/-- C5: map composition law — `of(x).map(f).map(g)` equals `of(g(f(x)))`
for all pure functions f, g and every value x. -/
theorem c5_map_composition {α β γ : Type} (f : α → β) (g : β → γ) (x : α) :
    ((OptionalValue.of x).map f).map g = OptionalValue.of (g (f x)) :=
  rfl

/-- C6: left identity — `of(x).flat_map(f)` equals `f(x)` directly, with no
double-wrapping of the result. -/
theorem c6_flat_map_left_identity {α β : Type} (x : α) (f : α → OptionalValue β) :
    (OptionalValue.of x).flat_map f = f x :=
  rfl

/-- C7: `empty().value_or(d)` equals `d` and `of(x).value_or(d)` equals `x`
(the result is always a plain value of the payload type). -/
theorem c7_value_or {α : Type} (d x : α) :
    (OptionalValue.empty : OptionalValue α).value_or d = d ∧
    (OptionalValue.of x).value_or d = x :=
  ⟨rfl, rfl⟩

/-- C8: `empty().value_or_eval(g)` invokes the generator exactly once (the
instrumented counter goes from n to n + 1) and returns its result, while
`of(x).value_or_eval(g)` never invokes it (the counter is unchanged) and
returns x. -/
theorem c8_value_or_eval_lazy {α : Type} (g : Unit → α) (x : α) (n : ℕ) :
    (OptionalValue.empty : OptionalValue α).value_or_eval g = g () ∧
    (OptionalValue.empty : OptionalValue α).value_or_eval_count
      (fun u k => (g u, k + 1)) n = (g (), n + 1) ∧
    (OptionalValue.of x).value_or_eval g = x ∧
    (OptionalValue.of x).value_or_eval_count (fun u k => (g u, k + 1)) n = (x, n) :=
  ⟨rfl, rfl, rfl, rfl⟩

/-- C9: every assertion in `main` holds on the single execution path —
`safe_square_root (-1)` is absent, `safe_square_root 1` is present, the
monadic middle-name chain is absent, and both ways of combining
`present 5` with absent are absent — and `main` completes normally
returning 0, for every model of `std::sqrt`. -/
theorem c9_main_assertions (sqrt : ℤ → ℚ) :
    safe_square_root sqrt (-1) = OptionalValue.absent ∧
    (safe_square_root sqrt 1).is_present = true ∧
    capitalized_middle_name = OptionalValue.absent ∧
    combine_with_ifs (OptionalValue.present 5) OptionalValue.absent =
      OptionalValue.absent ∧
    combine_functional (OptionalValue.present 5) OptionalValue.absent =
      OptionalValue.absent ∧
    mainRun sqrt = some 0 :=
  ⟨rfl, rfl, rfl, rfl, rfl, rfl⟩

/-- C10: in the traditional sad-path block, for the run as written
(`valid_res` is `present 1`, so the inner `safe_square_root (-1)` is
absent), `has_error` ends true, `evaluations_sequence` stays 0, and the
branch taken prints the numeric "sad value is %f" line rather than the
"sad value is invalid" line. -/
theorem c10_sad_path (sqrt : ℤ → ℚ) (h : sqrt 1 = 1) :
    safe_square_root sqrt 1 = OptionalValue.present 1 ∧
    sadBlock sqrt (safe_square_root sqrt 1) = (0, true, "sad value is %f\n") := by
  have hval : safe_square_root sqrt 1 = OptionalValue.present 1 := by
    simp [safe_square_root, h]
  refine ⟨hval, ?_⟩
  rw [hval]
  unfold sadBlock
  norm_num [safe_square_root, truncQ, ceil_neg_one]

/-- Witness for C10 at the concrete sqrt model. -/
theorem c10_sad_path_witness :
    sqrtModel 1 = 1 ∧
    sadBlock sqrtModel (safe_square_root sqrtModel 1) = (0, true, "sad value is %f\n") :=
  ⟨by decide, (c10_sad_path sqrtModel (by decide)).2⟩
